import Mathlib

/-!
Verification of the per-chat workflow orchestrator of the whatsfordinner bot
(cmd/bot/main.go and the telegram dispatch loop in pkg/telegram).

The handlers are embedded as pure functions from the results of their external
collaborator calls (fridge store, suggestion pool, AI advisor, transport poll
send) to the ordered trace of observable actions that the handler performs.
Message texts are abstracted into the Msg enumeration, one tag per distinct
message emitted by the source; everything that the claims talk about (which
store calls happen, with which arguments, in which order) is kept concrete.
-/

namespace WhatsForDinner

/-- models.Ingredient: (name, quantity), quantity is free text. -/
structure Ingredient where
  name : String
  quantity : String
deriving DecidableEq

/-- models.SuggestedDish as used by the dinner and suggest handlers. -/
structure SuggestedDish where
  id : String
  userID : String
  username : String
  name : String
  cuisine : String
  description : String
  used : Bool
deriving DecidableEq

/-- One AI dish candidate: the handler reads the keys name, cuisine and
description out of the map returned by SuggestDinnerOptions; a missing key
yields the empty string (Go type assertion with ignored ok flag). -/
structure AIDish where
  name : String
  cuisine : String
  description : String
deriving DecidableEq

/-- The dish information map returned by GetDishInfo, with the fields the
suggest handler extracts (again a missing key yields the empty string). -/
structure DishInfo where
  name : String
  cuisine : String
  description : String
  ingredientsNeeded : List String
deriving DecidableEq

/-- The per-chat conversational state of pkg/state (StateIdle,
StateAddingIngredients, StateAddingPhotos, StateSuggestingDish). -/
inductive ChatMode where
  | idle
  | addingIngredients
  | addingPhotos
  | suggestingDish
deriving DecidableEq

/-- Tags for the distinct user-facing messages emitted by the handlers. -/
inductive Msg where
  | errorRetrieveFridge
  | fridgeEmpty
  | processingDinner
  | aiFailed
  | noSuitableDishes
  | detailedSuggestions
  | errorCreatePoll
  | votingInstructions
  | suggestUsage
  | lookingUpDish
  | dishInfoFailed
  | suggestSaveFailed
  | suggestSaved
  | errorResetFridge
  | fridgeResetDone
  | parseIngredientsFailed
  | noIngredientsInText
  | ingredientsAdded
  | askMoreOrDone
  | processingPhoto
  | photoUrlFailed
  | extractFailed
  | noIngredientsInPhoto
  | foundIngredients
  | morePhotosPrompt
  | usePhotoCommand
  | fridgeUpdateComplete
  | sendMoreIngredients
  | fridgeHeader
  | fridgeContents
  | fridgeEmptyAdd
  | photoComplete
  | stillEmpty
  | nextSteps
  | photoCancelled
deriving DecidableEq

/-- One observable action of a handler, in the order it is performed. -/
inductive Action where
  | sendMessage (m : Msg)
  | editMessage (m : Msg)
  | advisorSuggest (count : Int)
  | markUsed (id : String)
  | createPoll (options : List String)
  | createVote (options : List String)
  | listFridge (ok : Bool)
  | addSuggestionAttempt (name cuisine description : String)
  | clearFridge
  | setMode (m : ChatMode)
  | clearMode
  | upsert (name : String) (ok : Bool)
  | answerCallback
deriving DecidableEq

/-- Whether an Except carries a success. -/
def exceptOk {α β : Type} : Except α β → Bool
  | Except.ok _ => true
  | Except.error _ => false

/-- The userSuggestions local of the dinner handler: the result of
GetUnusedSuggestions, replaced by the empty list when the pool read fails
(main.go lines 105 to 110). -/
def userSuggestionsOf (suggRes : Except String (List SuggestedDish)) :
    List SuggestedDish :=
  match suggRes with
  | Except.error _ => []
  | Except.ok l => l

/-- The aiSuggestionCount computation of the dinner handler (main.go lines
112 to 120): start from 4; when user suggestions exist take 4 minus their
number, floored at 2. Go int arithmetic, hence Int. -/
def computeAICount (nUser : Nat) : Int :=
  if nUser > 0 then
    if (4 - (nUser : Int)) < 2 then 2 else 4 - (nUser : Int)
  else 4

/-- The option list of the poll: user suggestion names first, then AI
candidate names (main.go lines 146 to 179, filled by index). -/
def pollOptions (users : List SuggestedDish) (ai : List AIDish) : List String :=
  users.map (fun s => s.name) ++ ai.map (fun d => d.name)

/-- The tail of the dinner trace once the merge loop runs (main.go lines 153
to 200): MarkAsUsed for every user suggestion inside the merge loop, then the
detailed-message edit, then the CreatePoll attempt; on poll failure an error
message, on success the vote record and the voting instructions. -/
def mergeTrace (users : List SuggestedDish) (ai : List AIDish)
    (pollRes : Except String Unit) : List Action :=
  users.map (fun s => Action.markUsed s.id) ++
    (Action.editMessage Msg.detailedSuggestions ::
     Action.createPoll (pollOptions users ai) ::
     (match pollRes with
      | Except.error _ => [Action.sendMessage Msg.errorCreatePoll]
      | Except.ok _ =>
        [Action.createVote (pollOptions users ai),
         Action.sendMessage Msg.votingInstructions]))

/-- The code after the SuggestDinnerOptions call (main.go lines 138 to 141):
when both sources are empty, bail out with the no-suitable-dishes message,
otherwise merge. -/
def afterAI (users : List SuggestedDish) (ai : List AIDish)
    (pollRes : Except String Unit) : List Action :=
  if ai.length = 0 ∧ users.length = 0 then [Action.editMessage Msg.noSuitableDishes]
  else mergeTrace users ai pollRes

/-- The list of AI candidates actually folded into the merge: the advisor
result for the computed count, or the empty list when the advisor failed and
the handler continued with user suggestions only (main.go lines 123 to 135). -/
def aiSuggestionsUsed (users : List SuggestedDish)
    (aiRes : Int → Except String (List AIDish)) : List AIDish :=
  match aiRes (computeAICount users.length) with
  | Except.error _ => []
  | Except.ok l => l

/-- The dinner command handler (main.go lines 77 to 201), as a function of the
fridge read result, the suggestion-pool read result, the advisor response (a
function of the requested candidate count) and the poll-send result. -/
def dinnerHandler (fridgeRes : Except String (List Ingredient))
    (suggRes : Except String (List SuggestedDish))
    (aiRes : Int → Except String (List AIDish))
    (pollRes : Except String Unit) : List Action :=
  match fridgeRes with
  | Except.error _ => [Action.sendMessage Msg.errorRetrieveFridge]
  | Except.ok ingredients =>
    if ingredients.length = 0 then [Action.sendMessage Msg.fridgeEmpty]
    else
      Action.sendMessage Msg.processingDinner ::
      Action.advisorSuggest (computeAICount (userSuggestionsOf suggRes).length) ::
      (match aiRes (computeAICount (userSuggestionsOf suggRes).length) with
       | Except.error _ =>
         if (userSuggestionsOf suggRes).length = 0 then
           [Action.editMessage Msg.aiFailed]
         else afterAI (userSuggestionsOf suggRes) [] pollRes
       | Except.ok ai => afterAI (userSuggestionsOf suggRes) ai pollRes)

/-- The option lists of all CreatePoll attempts occurring in a trace. -/
def pollOptionsIn (tr : List Action) : List (List String) :=
  tr.filterMap fun a =>
    match a with
    | Action.createPoll o => some o
    | _ => none

/-- The candidate counts of all SuggestDinnerOptions requests occurring in a
trace. -/
def advisorRequestsIn (tr : List Action) : List Int :=
  tr.filterMap fun a =>
    match a with
    | Action.advisorSuggest c => some c
    | _ => none

/-- The suggest command handler with a dish-name argument (main.go lines 357
to 464), as a function of the argument string, the GetDishInfo result, the
fridge read result (it only influences the composed message text) and the
AddSuggestion result. On GetDishInfo failure the handler edits in an apology
and returns without touching the suggestion pool; on success it falls back to
the bare argument when the returned name is empty, reads the fridge, and then
attempts the AddSuggestion persistence. -/
def suggestHandler (args : String) (dishInfoRes : Except String DishInfo)
    (fridgeRes : Except String (List Ingredient))
    (addRes : Except String Unit) : List Action :=
  if args = "" then [Action.sendMessage Msg.suggestUsage]
  else
    Action.sendMessage Msg.lookingUpDish ::
      (match dishInfoRes with
       | Except.error _ => [Action.editMessage Msg.dishInfoFailed]
       | Except.ok info =>
         Action.listFridge (exceptOk fridgeRes) ::
         Action.addSuggestionAttempt
             (if info.name = "" then args else info.name)
             info.cuisine info.description ::
           (match addRes with
            | Except.error _ => [Action.editMessage Msg.suggestSaveFailed]
            | Except.ok _ => [Action.editMessage Msg.suggestSaved]))

/-- The AddSuggestion attempts occurring in a trace, as
(name, cuisine, description) triples. -/
def addAttemptsIn (tr : List Action) : List (String × String × String) :=
  tr.filterMap fun a =>
    match a with
    | Action.addSuggestionAttempt n c d => some (n, c, d)
    | _ => none

/-- The per-chat state the sync_fridge handler touches: fridge contents and
conversational mode. -/
structure ChatStateModel where
  fridge : List Ingredient
  mode : ChatMode
deriving DecidableEq

/-- The sync_fridge command handler (main.go lines 236 to 252): ResetFridge
first; on failure an error message and an early return with the mode
untouched; on success the fridge is empty, then SetState AddingIngredients,
then the confirmation message. -/
def syncFridgeHandler (resetRes : Except String Unit) (st : ChatStateModel) :
    ChatStateModel × List Action :=
  match resetRes with
  | Except.error _ => (st, [Action.sendMessage Msg.errorResetFridge])
  | Except.ok _ =>
    ({ fridge := [], mode := ChatMode.addingIngredients },
     [Action.clearFridge, Action.setMode ChatMode.addingIngredients,
      Action.sendMessage Msg.fridgeResetDone])

/-- The AddIngredient loop over extracted names (main.go lines 324 to 329 and
516 to 521 and 578 to 584): every name is upserted in order; a failing upsert
is logged and the loop continues. -/
def upsertTrace (ings : List String)
    (upsertRes : String → Except String Unit) : List Action :=
  ings.map fun n => Action.upsert n (exceptOk (upsertRes n))

/-- The text path of the default handler while the chat is in
StateAddingIngredients (main.go lines 560 to 599): ParseIngredientsFromText,
early informative return on failure or on the empty list, otherwise the
upsert loop followed by the confirmation and the more-or-done prompt. -/
def ingestTextHandler (parseRes : Except String (List String))
    (upsertRes : String → Except String Unit) : List Action :=
  match parseRes with
  | Except.error _ => [Action.sendMessage Msg.parseIngredientsFailed]
  | Except.ok ings =>
    if ings.length = 0 then [Action.sendMessage Msg.noIngredientsInText]
    else
      upsertTrace ings upsertRes ++
        [Action.sendMessage Msg.ingredientsAdded,
         Action.sendMessage Msg.askMoreOrDone]

/-- The photo path of the default handler (main.go lines 484 to 557): only
active in StateAddingIngredients or StateAddingPhotos; processing message,
GetFileURL, ExtractIngredientsFromPhoto, early informative return on failure
or on the empty list, otherwise the upsert loop, the result edit and the
state-dependent follow-up prompt. -/
def ingestPhotoHandler (mode : ChatMode) (urlRes : Except String String)
    (extractRes : String → Except String (List String))
    (upsertRes : String → Except String Unit) : List Action :=
  if mode = ChatMode.addingIngredients ∨ mode = ChatMode.addingPhotos then
    Action.sendMessage Msg.processingPhoto ::
      (match urlRes with
       | Except.error _ => [Action.sendMessage Msg.photoUrlFailed]
       | Except.ok url =>
         match extractRes url with
         | Except.error _ => [Action.sendMessage Msg.extractFailed]
         | Except.ok ings =>
           if ings.length = 0 then [Action.sendMessage Msg.noIngredientsInPhoto]
           else
             upsertTrace ings upsertRes ++
               [Action.editMessage Msg.foundIngredients,
                Action.sendMessage Msg.morePhotosPrompt])
  else [Action.sendMessage Msg.usePhotoCommand]

/-- The names whose upsert was attempted in a trace. -/
def upsertedNames (tr : List Action) : List String :=
  tr.filterMap fun a =>
    match a with
    | Action.upsert n _ => some n
    | _ => none

/-- The callback match condition of Bot.Start (pkg/telegram, lines 74 to 75):
the registered tag is a leading substring of the callback data. -/
def tagMatches (tag data : String) : Bool :=
  List.isPrefixOf tag.toList data.toList

/-- The callback dispatch loop of Bot.Start (pkg/telegram, lines 72 to 82):
walk the registered (tag, handler) pairs in the iteration order of the Go
map, run the first handler whose tag matches and stop; when nothing matches,
nothing runs and the press is dropped without acknowledgement. The iteration
order of a Go map is unspecified, so it enters the model as the order of the
list. -/
def dispatchCallback (handlers : List (String × List Action)) (data : String) :
    List Action :=
  match handlers with
  | [] => []
  | h :: rest => if tagMatches h.1 data then h.2 else dispatchCallback rest data

/-- The done_adding callback handler (main.go lines 623 to 636):
ClearState, AnswerCallbackQuery, button-stripping edit. -/
def doneAddingTrace : List Action :=
  [Action.clearMode, Action.answerCallback,
   Action.editMessage Msg.fridgeUpdateComplete]

/-- The add_more callback handler (main.go lines 638 to 650). -/
def addMoreTrace : List Action :=
  [Action.answerCallback, Action.editMessage Msg.sendMoreIngredients]

/-- The show_fridge callback handler (main.go lines 652 to 693):
acknowledge, edit, then render the fridge listing. -/
def showFridgeTrace (fridgeRes : Except String (List Ingredient)) :
    List Action :=
  Action.answerCallback :: Action.editMessage Msg.fridgeHeader ::
    (match fridgeRes with
     | Except.error _ => [Action.sendMessage Msg.errorRetrieveFridge]
     | Except.ok ings =>
       if ings.length = 0 then [Action.sendMessage Msg.fridgeEmptyAdd]
       else [Action.sendMessage Msg.fridgeContents])

/-- The done_adding_photos callback handler (main.go lines 695 to 741):
ClearState, acknowledge, edit, then the fridge listing and next steps. -/
def doneAddingPhotosTrace (fridgeRes : Except String (List Ingredient)) :
    List Action :=
  Action.clearMode :: Action.answerCallback ::
    Action.editMessage Msg.photoComplete ::
    (match fridgeRes with
     | Except.error _ => []
     | Except.ok ings =>
       if ings.length = 0 then [Action.sendMessage Msg.stillEmpty]
       else
         [Action.sendMessage Msg.fridgeContents,
          Action.sendMessage Msg.nextSteps])

/-- The cancel_adding_photos callback handler (main.go lines 743 to 756). -/
def cancelAddingPhotosTrace : List Action :=
  [Action.clearMode, Action.answerCallback,
   Action.editMessage Msg.photoCancelled]

/-- The callback handler registrations of main.go (lines 623 to 756), in
source registration order; at dispatch time the Go map yields them in an
arbitrary order. -/
def registeredCallbackHandlers (fridgeRes : Except String (List Ingredient)) :
    List (String × List Action) :=
  [("done_adding", doneAddingTrace),
   ("add_more", addMoreTrace),
   ("show_fridge", showFridgeTrace fridgeRes),
   ("done_adding_photos", doneAddingPhotosTrace fridgeRes),
   ("cancel_adding_photos", cancelAddingPhotosTrace)]

/-- A second iteration order of the same registered handlers, with the
done_adding_photos entry visited first. -/
def registeredSwapped (fridgeRes : Except String (List Ingredient)) :
    List (String × List Action) :=
  [("done_adding_photos", doneAddingPhotosTrace fridgeRes),
   ("done_adding", doneAddingTrace),
   ("add_more", addMoreTrace),
   ("show_fridge", showFridgeTrace fridgeRes),
   ("cancel_adding_photos", cancelAddingPhotosTrace)]

/-- A concrete user suggestion, for counterexamples and witnesses. -/
def carbonara : SuggestedDish :=
  { id := "s1", userID := "u1", username := "alice", name := "Carbonara",
    cuisine := "Italian", description := "Pasta and eggs", used := false }

/-- A concrete two-item fridge. -/
def exFridge : List Ingredient :=
  [{ name := "Tomato", quantity := "" }, { name := "Pasta", quantity := "" }]

/-- A concrete suggestion maker. -/
def mkDish (i nm : String) : SuggestedDish :=
  { id := i, userID := "u1", username := "bob", name := nm, cuisine := "",
    description := "", used := false }

/-- Eleven concrete unused user suggestions. -/
def elevenDishes : List SuggestedDish :=
  [mkDish "d01" "A", mkDish "d02" "B", mkDish "d03" "C", mkDish "d04" "D",
   mkDish "d05" "E", mkDish "d06" "F", mkDish "d07" "G", mkDish "d08" "H",
   mkDish "d09" "I", mkDish "d10" "J", mkDish "d11" "K"]

/-- Two concrete AI candidates. -/
def aiPair : List AIDish :=
  [{ name := "Ratatouille", cuisine := "French", description := "Vegetables" },
   { name := "Minestrone", cuisine := "Italian", description := "Soup" }]

theorem mergeTrace_createPoll (users : List SuggestedDish) (ai : List AIDish)
    (pollRes : Except String Unit) (opts : List String)
    (h : Action.createPoll opts ∈ mergeTrace users ai pollRes) :
    opts = pollOptions users ai ∧
    ∃ post, mergeTrace users ai pollRes =
      (users.map (fun s => Action.markUsed s.id) ++
        [Action.editMessage Msg.detailedSuggestions]) ++
        Action.createPoll opts :: post := by
  have hopts : opts = pollOptions users ai := by
    rcases pollRes with e | u <;> simp [mergeTrace] at h <;> exact h
  subst hopts
  refine ⟨rfl, ?_⟩
  rcases pollRes with e | u
  · exact ⟨[Action.sendMessage Msg.errorCreatePoll], by simp [mergeTrace]⟩
  · exact ⟨[Action.createVote (pollOptions users ai),
      Action.sendMessage Msg.votingInstructions], by simp [mergeTrace]⟩

theorem dinnerHandler_createPoll_shape
    (fridgeRes : Except String (List Ingredient))
    (suggRes : Except String (List SuggestedDish))
    (aiRes : Int → Except String (List AIDish))
    (pollRes : Except String Unit) (opts : List String)
    (h : Action.createPoll opts ∈ dinnerHandler fridgeRes suggRes aiRes pollRes) :
    opts = pollOptions (userSuggestionsOf suggRes)
        (aiSuggestionsUsed (userSuggestionsOf suggRes) aiRes) ∧
    ¬((userSuggestionsOf suggRes).length = 0 ∧
      (aiSuggestionsUsed (userSuggestionsOf suggRes) aiRes).length = 0) ∧
    ∃ pre post,
      dinnerHandler fridgeRes suggRes aiRes pollRes =
        pre ++ Action.createPoll opts :: post ∧
      ∀ s ∈ userSuggestionsOf suggRes, Action.markUsed s.id ∈ pre := by
  rcases fridgeRes with e | ingredients
  · simp [dinnerHandler] at h
  by_cases hlen : ingredients.length = 0
  · simp [dinnerHandler, hlen] at h
  rcases hai : aiRes (computeAICount (userSuggestionsOf suggRes).length) with e2 | ai
  · -- advisor failed
    by_cases hu : (userSuggestionsOf suggRes).length = 0
    · simp only [dinnerHandler, if_neg hlen, hai] at h
      rw [if_pos hu] at h
      simp at h
    have hc : ¬(([] : List AIDish).length = 0 ∧
        (userSuggestionsOf suggRes).length = 0) := fun hcc => hu hcc.2
    have htr : dinnerHandler (Except.ok ingredients) suggRes aiRes pollRes =
        Action.sendMessage Msg.processingDinner ::
        Action.advisorSuggest (computeAICount (userSuggestionsOf suggRes).length) ::
        mergeTrace (userSuggestionsOf suggRes) [] pollRes := by
      simp only [dinnerHandler, if_neg hlen, hai, afterAI]
      rw [if_neg hu, if_neg hc]
    rw [htr] at h
    simp only [List.mem_cons] at h
    rcases h with h | h | h
    · exact absurd h (by simp)
    · exact absurd h (by simp)
    have hused : aiSuggestionsUsed (userSuggestionsOf suggRes) aiRes = [] := by
      simp [aiSuggestionsUsed, hai]
    obtain ⟨hopts, post, heq⟩ := mergeTrace_createPoll _ _ _ _ h
    refine ⟨by simpa [hused] using hopts, by simp [hu], ?_⟩
    refine ⟨Action.sendMessage Msg.processingDinner ::
      Action.advisorSuggest (computeAICount (userSuggestionsOf suggRes).length) ::
      ((userSuggestionsOf suggRes).map (fun s => Action.markUsed s.id) ++
        [Action.editMessage Msg.detailedSuggestions]), post, ?_, ?_⟩
    · rw [htr, heq]
      simp
    · intro s hs
      simp only [List.mem_cons, List.mem_append, List.mem_map]
      exact Or.inr (Or.inr (Or.inl ⟨s, hs, rfl⟩))
  · -- advisor returned ai candidates
    have hused : aiSuggestionsUsed (userSuggestionsOf suggRes) aiRes = ai := by
      simp [aiSuggestionsUsed, hai]
    by_cases hc : ai.length = 0 ∧ (userSuggestionsOf suggRes).length = 0
    · simp only [dinnerHandler, if_neg hlen, hai, afterAI] at h
      rw [if_pos hc] at h
      simp at h
    have htr : dinnerHandler (Except.ok ingredients) suggRes aiRes pollRes =
        Action.sendMessage Msg.processingDinner ::
        Action.advisorSuggest (computeAICount (userSuggestionsOf suggRes).length) ::
        mergeTrace (userSuggestionsOf suggRes) ai pollRes := by
      simp only [dinnerHandler, if_neg hlen, hai, afterAI]
      rw [if_neg hc]
    rw [htr] at h
    simp only [List.mem_cons] at h
    rcases h with h | h | h
    · exact absurd h (by simp)
    · exact absurd h (by simp)
    obtain ⟨hopts, post, heq⟩ := mergeTrace_createPoll _ _ _ _ h
    refine ⟨by simpa [hused] using hopts, by rw [hused]; tauto, ?_⟩
    refine ⟨Action.sendMessage Msg.processingDinner ::
      Action.advisorSuggest (computeAICount (userSuggestionsOf suggRes).length) ::
      ((userSuggestionsOf suggRes).map (fun s => Action.markUsed s.id) ++
        [Action.editMessage Msg.detailedSuggestions]), post, ?_, ?_⟩
    · rw [htr, heq]
      simp
    · intro s hs
      simp only [List.mem_cons, List.mem_append, List.mem_map]
      exact Or.inr (Or.inr (Or.inl ⟨s, hs, rfl⟩))

theorem advisorRequestsIn_markUsed_append (users : List SuggestedDish)
    (rest : List Action) :
    advisorRequestsIn (users.map (fun s => Action.markUsed s.id) ++ rest) =
      advisorRequestsIn rest := by
  induction users with
  | nil => rfl
  | cons a tl ih => exact ih

theorem advisorRequestsIn_mergeTrace (users : List SuggestedDish)
    (ai : List AIDish) (pollRes : Except String Unit) :
    advisorRequestsIn (mergeTrace users ai pollRes) = [] := by
  rw [mergeTrace.eq_def, advisorRequestsIn_markUsed_append]
  rcases pollRes with e | u <;> rfl

theorem advisorRequestsIn_afterAI (users : List SuggestedDish)
    (ai : List AIDish) (pollRes : Except String Unit) :
    advisorRequestsIn (afterAI users ai pollRes) = [] := by
  rw [afterAI]
  split
  · rfl
  · exact advisorRequestsIn_mergeTrace users ai pollRes

theorem advisorRequestsIn_cons2 (m : Msg) (c : Int) (tail : List Action)
    (h : advisorRequestsIn tail = []) :
    advisorRequestsIn (Action.sendMessage m ::
      Action.advisorSuggest c :: tail) = [c] := by
  show c :: advisorRequestsIn tail = [c]
  rw [h]

theorem advisorRequestsIn_dinner (ingredients : List Ingredient)
    (suggRes : Except String (List SuggestedDish))
    (aiRes : Int → Except String (List AIDish))
    (pollRes : Except String Unit) (hlen : ¬ ingredients.length = 0) :
    advisorRequestsIn
        (dinnerHandler (Except.ok ingredients) suggRes aiRes pollRes) =
      [computeAICount (userSuggestionsOf suggRes).length] := by
  rcases hai : aiRes (computeAICount (userSuggestionsOf suggRes).length)
    with e2 | ai
  · by_cases hu : (userSuggestionsOf suggRes).length = 0
    · simp only [dinnerHandler, if_neg hlen, hai, if_pos hu]
      exact advisorRequestsIn_cons2 _ _ _ rfl
    · simp only [dinnerHandler, if_neg hlen, hai, if_neg hu]
      exact advisorRequestsIn_cons2 _ _ _ (advisorRequestsIn_afterAI _ _ _)
  · simp only [dinnerHandler, if_neg hlen, hai]
    exact advisorRequestsIn_cons2 _ _ _ (advisorRequestsIn_afterAI _ _ _)

/-- Claim C2: a dinner start with a non-empty fridge makes exactly one
advisor request, for exactly 4 candidates when no unused user suggestion
exists and for max 2 (4 - unused) candidates otherwise; with one unused
suggestion that number is 3. -/
theorem dinner_ai_count
    (suggRes : Except String (List SuggestedDish))
    (aiRes : Int → Except String (List AIDish))
    (pollRes : Except String Unit)
    (ingredients : List Ingredient) (n : Nat)
    (hne : ingredients ≠ []) (hn : n = (userSuggestionsOf suggRes).length) :
    advisorRequestsIn
        (dinnerHandler (Except.ok ingredients) suggRes aiRes pollRes) =
      [if n = 0 then 4 else max 2 (4 - (n : Int))] ∧
    computeAICount 1 = 3 := by
  subst hn
  have hcount : computeAICount (userSuggestionsOf suggRes).length =
      if (userSuggestionsOf suggRes).length = 0 then 4
      else max 2 (4 - ((userSuggestionsOf suggRes).length : Int)) := by
    rcases Nat.eq_zero_or_pos (userSuggestionsOf suggRes).length with h0 | hpos
    · simp [computeAICount, h0]
    · rw [computeAICount, if_pos hpos, if_neg (Nat.pos_iff_ne_zero.mp hpos)]
      split <;> omega
  have hlen : ¬ ingredients.length = 0 := by
    simpa [List.length_eq_zero] using hne
  refine ⟨?_, by decide⟩
  rw [advisorRequestsIn_dinner ingredients suggRes aiRes pollRes hlen, hcount]

/-- Claim C2 witness: one unused suggestion, two-item fridge, the single
advisor request asks for 3 candidates. -/
theorem dinner_ai_count_witness :
    advisorRequestsIn
        (dinnerHandler (Except.ok exFridge) (Except.ok [carbonara])
          (fun _ => Except.ok aiPair) (Except.ok ())) =
      [if (1 : Nat) = 0 then 4 else max 2 (4 - ((1 : Nat) : Int))] ∧
    computeAICount 1 = 3 :=
  dinner_ai_count (Except.ok [carbonara]) (fun _ => Except.ok aiPair)
    (Except.ok ()) exFridge 1 (by decide) (by decide)

/-- Claim C3 counterexample: with one unused suggestion and a failed advisor
call the dinner handler attempts a poll with exactly one option, and with
eleven unused suggestions plus two AI candidates it attempts a poll with 13
options; neither the floor of two options nor a ceiling is enforced. -/
theorem dinner_poll_min_options_cex :
    pollOptionsIn (dinnerHandler (Except.ok exFridge) (Except.ok [carbonara])
        (fun _ => Except.error "advisor down") (Except.ok ())) = [["Carbonara"]] ∧
    (pollOptionsIn (dinnerHandler (Except.ok exFridge) (Except.ok elevenDishes)
        (fun _ => Except.ok aiPair) (Except.ok ()))).map List.length = [13] := by
  constructor <;> rfl

/-- Claim C3 (amended): every poll attempted by the dinner handler has a
non-empty option list (at least one option); the code enforces no lower bound
of two and no upper ceiling on the option count. -/
theorem dinner_poll_options_nonempty
    (fridgeRes : Except String (List Ingredient))
    (suggRes : Except String (List SuggestedDish))
    (aiRes : Int → Except String (List AIDish))
    (pollRes : Except String Unit) (opts : List String)
    (h : Action.createPoll opts ∈ dinnerHandler fridgeRes suggRes aiRes pollRes) :
    0 < opts.length := by
  obtain ⟨h1, h2, -⟩ := dinnerHandler_createPoll_shape _ _ _ _ _ h
  subst h1
  simp only [pollOptions, List.length_append, List.length_map]
  omega

/-- Claim C3 (amended) witness: the one-option poll of the counterexample
still satisfies the amended non-emptiness bound. -/
theorem dinner_poll_options_nonempty_witness :
    0 < (["Carbonara"] : List String).length :=
  dinner_poll_options_nonempty (Except.ok exFridge) (Except.ok [carbonara])
    (fun _ => Except.error "advisor down") (Except.ok ()) ["Carbonara"] (by decide)

/-- Claim C4: every poll option list attempted by the dinner handler is the
user suggestion names, in pool order, followed by the AI candidate names. -/
theorem dinner_user_suggestions_first
    (fridgeRes : Except String (List Ingredient))
    (suggRes : Except String (List SuggestedDish))
    (aiRes : Int → Except String (List AIDish))
    (pollRes : Except String Unit) (opts : List String)
    (h : Action.createPoll opts ∈ dinnerHandler fridgeRes suggRes aiRes pollRes) :
    opts = (userSuggestionsOf suggRes).map (fun s => s.name) ++
      (aiSuggestionsUsed (userSuggestionsOf suggRes) aiRes).map (fun d => d.name) :=
  (dinnerHandler_createPoll_shape _ _ _ _ _ h).1

/-- Claim C4 witness: one user suggestion and two AI candidates, user
suggestion leading. -/
theorem dinner_user_suggestions_first_witness :
    (["Carbonara", "Ratatouille", "Minestrone"] : List String) =
      (userSuggestionsOf (Except.ok [carbonara])).map (fun s => s.name) ++
      (aiSuggestionsUsed (userSuggestionsOf (Except.ok [carbonara]))
          (fun _ => Except.ok aiPair)).map (fun d => d.name) :=
  dinner_user_suggestions_first (Except.ok exFridge) (Except.ok [carbonara])
    (fun _ => Except.ok aiPair) (Except.ok ())
    ["Carbonara", "Ratatouille", "Minestrone"] (by decide)

/-- Claim C5: whenever the dinner handler attempts a poll, every user
suggestion folded into the options has its MarkAsUsed call strictly earlier
in the trace than the poll-creation attempt, for any poll-send outcome. -/
theorem dinner_marks_used_before_poll
    (fridgeRes : Except String (List Ingredient))
    (suggRes : Except String (List SuggestedDish))
    (aiRes : Int → Except String (List AIDish))
    (pollRes : Except String Unit) (opts : List String)
    (h : Action.createPoll opts ∈ dinnerHandler fridgeRes suggRes aiRes pollRes) :
    ∃ pre post,
      dinnerHandler fridgeRes suggRes aiRes pollRes =
        pre ++ Action.createPoll opts :: post ∧
      ∀ s ∈ userSuggestionsOf suggRes, Action.markUsed s.id ∈ pre :=
  (dinnerHandler_createPoll_shape _ _ _ _ _ h).2.2

/-- Claim C5 witness: with a failing poll send the merged suggestion is still
marked used before the poll attempt. -/
theorem dinner_marks_used_before_poll_witness :
    ∃ pre post,
      dinnerHandler (Except.ok exFridge) (Except.ok [carbonara])
          (fun _ => Except.error "advisor down") (Except.error "send failed") =
        pre ++ Action.createPoll ["Carbonara"] :: post ∧
      ∀ s ∈ userSuggestionsOf (Except.ok [carbonara]),
        Action.markUsed s.id ∈ pre :=
  dinner_marks_used_before_poll (Except.ok exFridge) (Except.ok [carbonara])
    (fun _ => Except.error "advisor down") (Except.error "send failed")
    ["Carbonara"] (by decide)

/-- Claim C7: a dinner start on an empty fridge produces exactly the
fridge-is-empty message, with no advisor request and no poll attempt. -/
theorem dinner_empty_fridge
    (suggRes : Except String (List SuggestedDish))
    (aiRes : Int → Except String (List AIDish))
    (pollRes : Except String Unit) :
    dinnerHandler (Except.ok []) suggRes aiRes pollRes =
      [Action.sendMessage Msg.fridgeEmpty] ∧
    (∀ n : Int, Action.advisorSuggest n ∉
      dinnerHandler (Except.ok []) suggRes aiRes pollRes) ∧
    (∀ opts : List String, Action.createPoll opts ∉
      dinnerHandler (Except.ok []) suggRes aiRes pollRes) := by
  refine ⟨rfl, ?_, ?_⟩ <;> intro x <;> simp [dinnerHandler]

/-- Claim C1 counterexample: when GetDishInfo fails, the suggest handler
edits in an apology and returns; no AddSuggestion call is made at all, so no
SuggestedDish is persisted, contrary to the claimed bare-name fallback. -/
theorem suggest_no_persist_on_enrichment_failure_cex :
    addAttemptsIn (suggestHandler "Lasagna" (Except.error "timeout")
        (Except.ok []) (Except.ok ())) = [] ∧
    suggestHandler "Lasagna" (Except.error "timeout") (Except.ok [])
        (Except.ok ()) =
      [Action.sendMessage Msg.lookingUpDish,
       Action.editMessage Msg.dishInfoFailed] := by
  constructor <;> rfl

/-- Claim C1 (amended): a SuggestedDish persistence is attempted exactly when
the enrichment call succeeds, and the bare user-provided name is used only
when the successful enrichment result carries an empty name; on enrichment
failure nothing is persisted. -/
theorem suggest_persist_iff_enrichment_success
    (args e : String) (info : DishInfo)
    (fridgeRes : Except String (List Ingredient)) (addRes : Except String Unit)
    (hargs : args ≠ "") :
    addAttemptsIn (suggestHandler args (Except.error e) fridgeRes addRes) = [] ∧
    addAttemptsIn (suggestHandler args (Except.ok info) fridgeRes addRes) =
      [((if info.name = "" then args else info.name),
        info.cuisine, info.description)] := by
  have h : ¬ args = "" := hargs
  rcases addRes with e2 | u <;> simp [suggestHandler, addAttemptsIn, h]

/-- Claim C1 (amended) witness: enrichment failure persists nothing;
successful enrichment with an empty returned name falls back to the bare
argument. -/
theorem suggest_persist_iff_enrichment_success_witness :
    addAttemptsIn (suggestHandler "Lasagna" (Except.error "timeout")
        (Except.ok []) (Except.ok ())) = [] ∧
    addAttemptsIn (suggestHandler "Lasagna"
        (Except.ok { name := "", cuisine := "Italian",
                     description := "Layered pasta",
                     ingredientsNeeded := ["Pasta"] })
        (Except.ok []) (Except.ok ())) =
      [((if ("" : String) = "" then "Lasagna" else ""),
        "Italian", "Layered pasta")] :=
  suggest_persist_iff_enrichment_success "Lasagna" "timeout"
    { name := "", cuisine := "Italian", description := "Layered pasta",
      ingredientsNeeded := ["Pasta"] }
    (Except.ok []) (Except.ok ()) (by decide)

/-- Claim C6: a successful fridge reset empties the fridge and performs the
clear strictly before setting the mode to the ingredient-awaiting state, for
any prior chat state; a failed reset leaves the mode unchanged and performs
no mode transition. -/
theorem sync_fridge_clear_before_mode (st : ChatStateModel) (e : String) :
    (syncFridgeHandler (Except.ok ()) st).1.fridge = [] ∧
    (syncFridgeHandler (Except.ok ()) st).1.mode = ChatMode.addingIngredients ∧
    (syncFridgeHandler (Except.ok ()) st).2 =
      [Action.clearFridge, Action.setMode ChatMode.addingIngredients,
       Action.sendMessage Msg.fridgeResetDone] ∧
    (syncFridgeHandler (Except.error e) st).1.mode = st.mode ∧
    (∀ m : ChatMode,
      Action.setMode m ∉ (syncFridgeHandler (Except.error e) st).2) := by
  refine ⟨rfl, rfl, rfl, rfl, ?_⟩
  intro m
  simp [syncFridgeHandler]

theorem upsertedNames_upsertTrace (ings : List String)
    (u : String → Except String Unit) (rest : List Action) :
    upsertedNames (upsertTrace ings u ++ rest) = ings ++ upsertedNames rest := by
  induction ings with
  | nil => rfl
  | cons a tl ih =>
    show upsertedNames (Action.upsert a (exceptOk (u a)) ::
      (upsertTrace tl u ++ rest)) = a :: (tl ++ upsertedNames rest)
    rw [upsertedNames, List.filterMap_cons]
    exact congrArg (a :: ·) ih

theorem upsertedNames_cons_msg (m : Msg) (l : List Action) :
    upsertedNames (Action.sendMessage m :: l) = upsertedNames l := rfl

/-- Claim C8: on a failed or empty advisor extraction (text or photo path)
the user is informed and no upsert is attempted; on a non-empty extraction
every returned name is upserted in order, whatever the per-item upsert
outcomes are, so one item's failure never aborts the rest. -/
theorem ingestion_failure_policy (e url : String) (ings : List String)
    (upsertRes : String → Except String Unit) (hne : ings ≠ []) :
    upsertedNames (ingestTextHandler (Except.error e) upsertRes) = [] ∧
    upsertedNames (ingestTextHandler (Except.ok []) upsertRes) = [] ∧
    Action.sendMessage Msg.parseIngredientsFailed ∈
      ingestTextHandler (Except.error e) upsertRes ∧
    Action.sendMessage Msg.noIngredientsInText ∈
      ingestTextHandler (Except.ok []) upsertRes ∧
    upsertedNames (ingestTextHandler (Except.ok ings) upsertRes) = ings ∧
    upsertedNames (ingestPhotoHandler ChatMode.addingPhotos (Except.ok url)
      (fun _ => Except.error e) upsertRes) = [] ∧
    upsertedNames (ingestPhotoHandler ChatMode.addingPhotos (Except.ok url)
      (fun _ => Except.ok []) upsertRes) = [] ∧
    Action.sendMessage Msg.extractFailed ∈
      ingestPhotoHandler ChatMode.addingPhotos (Except.ok url)
        (fun _ => Except.error e) upsertRes ∧
    Action.sendMessage Msg.noIngredientsInPhoto ∈
      ingestPhotoHandler ChatMode.addingPhotos (Except.ok url)
        (fun _ => Except.ok []) upsertRes ∧
    upsertedNames (ingestPhotoHandler ChatMode.addingPhotos (Except.ok url)
      (fun _ => Except.ok ings) upsertRes) = ings := by
  have hlen : ¬ ings.length = 0 := by simpa [List.length_eq_zero] using hne
  have hmode : ChatMode.addingPhotos = ChatMode.addingIngredients ∨
      ChatMode.addingPhotos = ChatMode.addingPhotos := Or.inr rfl
  refine ⟨rfl, rfl, by simp [ingestTextHandler], by simp [ingestTextHandler],
    ?_, rfl, rfl, by simp [ingestPhotoHandler], by simp [ingestPhotoHandler], ?_⟩
  · rw [ingestTextHandler]
    rw [if_neg hlen, upsertedNames_upsertTrace]
    simp [upsertedNames]
  · rw [ingestPhotoHandler, if_pos hmode]
    show upsertedNames (Action.sendMessage Msg.processingPhoto ::
      (if ings.length = 0 then [Action.sendMessage Msg.noIngredientsInPhoto]
       else upsertTrace ings upsertRes ++
         [Action.editMessage Msg.foundIngredients,
          Action.sendMessage Msg.morePhotosPrompt])) = ings
    rw [if_neg hlen, upsertedNames_cons_msg, upsertedNames_upsertTrace]
    simp [upsertedNames]

/-- Claim C8 witness: two extracted names with the first upsert failing; both
names are still upserted on both paths, and the failure and empty cases
attempt nothing. -/
theorem ingestion_failure_policy_witness :
    upsertedNames (ingestTextHandler (Except.error "boom")
      (fun n => if n = "Milk" then Except.error "disk" else Except.ok ())) = [] ∧
    upsertedNames (ingestTextHandler (Except.ok [])
      (fun n => if n = "Milk" then Except.error "disk" else Except.ok ())) = [] ∧
    Action.sendMessage Msg.parseIngredientsFailed ∈
      ingestTextHandler (Except.error "boom")
        (fun n => if n = "Milk" then Except.error "disk" else Except.ok ()) ∧
    Action.sendMessage Msg.noIngredientsInText ∈
      ingestTextHandler (Except.ok [])
        (fun n => if n = "Milk" then Except.error "disk" else Except.ok ()) ∧
    upsertedNames (ingestTextHandler (Except.ok ["Milk", "Butter"])
      (fun n => if n = "Milk" then Except.error "disk" else Except.ok ())) =
      ["Milk", "Butter"] ∧
    upsertedNames (ingestPhotoHandler ChatMode.addingPhotos
      (Except.ok "https://example.test/photo") (fun _ => Except.error "boom")
      (fun n => if n = "Milk" then Except.error "disk" else Except.ok ())) = [] ∧
    upsertedNames (ingestPhotoHandler ChatMode.addingPhotos
      (Except.ok "https://example.test/photo") (fun _ => Except.ok [])
      (fun n => if n = "Milk" then Except.error "disk" else Except.ok ())) = [] ∧
    Action.sendMessage Msg.extractFailed ∈
      ingestPhotoHandler ChatMode.addingPhotos
        (Except.ok "https://example.test/photo") (fun _ => Except.error "boom")
        (fun n => if n = "Milk" then Except.error "disk" else Except.ok ()) ∧
    Action.sendMessage Msg.noIngredientsInPhoto ∈
      ingestPhotoHandler ChatMode.addingPhotos
        (Except.ok "https://example.test/photo") (fun _ => Except.ok [])
        (fun n => if n = "Milk" then Except.error "disk" else Except.ok ()) ∧
    upsertedNames (ingestPhotoHandler ChatMode.addingPhotos
      (Except.ok "https://example.test/photo")
      (fun _ => Except.ok ["Milk", "Butter"])
      (fun n => if n = "Milk" then Except.error "disk" else Except.ok ())) =
      ["Milk", "Butter"] :=
  ingestion_failure_policy "boom" "https://example.test/photo"
    ["Milk", "Butter"]
    (fun n => if n = "Milk" then Except.error "disk" else Except.ok ())
    (by decide)

theorem dispatch_eq_nil_of_no_match (handlers : List (String × List Action))
    (data : String) (h : ∀ p ∈ handlers, tagMatches p.1 data = false) :
    dispatchCallback handlers data = [] := by
  induction handlers with
  | nil => rfl
  | cons hd tl ih =>
    have hhd := h hd (List.mem_cons_self _ _)
    rw [dispatchCallback, if_neg (by simp [hhd])]
    exact ih fun p hp => h p (List.mem_cons_of_mem _ hp)

theorem dispatch_result_of_match (handlers : List (String × List Action))
    (data : String) (h : ∃ p ∈ handlers, tagMatches p.1 data = true) :
    ∃ p ∈ handlers, dispatchCallback handlers data = p.2 := by
  induction handlers with
  | nil => simp at h
  | cons hd tl ih =>
    by_cases hhd : tagMatches hd.1 data = true
    · exact ⟨hd, List.mem_cons_self _ _, by rw [dispatchCallback, if_pos hhd]⟩
    · have h2 : ∃ p ∈ tl, tagMatches p.1 data = true := by
        rcases h with ⟨p, hp, hm⟩
        rcases List.mem_cons.mp hp with rfl | hp2
        · exact absurd hm hhd
        · exact ⟨p, hp2, hm⟩
      rcases ih h2 with ⟨p, hp, he⟩
      exact ⟨p, List.mem_cons_of_mem _ hp,
        by rw [dispatchCallback, if_neg hhd]; exact he⟩

theorem registered_handlers_ack (fridgeRes : Except String (List Ingredient))
    (p : String × List Action)
    (hp : p ∈ registeredCallbackHandlers fridgeRes) :
    Action.answerCallback ∈ p.2 := by
  simp only [registeredCallbackHandlers, List.mem_cons,
    List.not_mem_nil, or_false] at hp
  rcases hp with rfl | rfl | rfl | rfl | rfl <;>
    simp [doneAddingTrace, addMoreTrace, showFridgeTrace,
      doneAddingPhotosTrace, cancelAddingPhotosTrace]

/-- Claim C9 counterexample: a button press whose data matches no registered
tag runs nothing at all; in particular no acknowledgement, not even a no-op
one, is issued to the transport. -/
theorem callback_no_ack_when_unmatched_cex :
    dispatchCallback (registeredCallbackHandlers (Except.ok []))
      "some_other_tag" = [] ∧
    Action.answerCallback ∉
      dispatchCallback (registeredCallbackHandlers (Except.ok []))
        "some_other_tag" := by
  constructor
  · rfl
  · decide

/-- Claim C9 (amended): for any iteration order of the registered callback
handlers, a press whose data matches some registered tag is acknowledged by
the handler that runs, while a press matching no tag runs nothing and
receives no acknowledgement at all. -/
theorem callback_ack_amended (fridgeRes : Except String (List Ingredient))
    (handlers : List (String × List Action)) (data : String)
    (hperm : handlers.Perm (registeredCallbackHandlers fridgeRes)) :
    ((∃ p ∈ handlers, tagMatches p.1 data = true) →
      Action.answerCallback ∈ dispatchCallback handlers data) ∧
    ((¬ ∃ p ∈ handlers, tagMatches p.1 data = true) →
      dispatchCallback handlers data = []) := by
  constructor
  · intro hex
    rcases dispatch_result_of_match handlers data hex with ⟨p, hp, he⟩
    rw [he]
    exact registered_handlers_ack fridgeRes p (hperm.mem_iff.mp hp)
  · intro hnex
    refine dispatch_eq_nil_of_no_match handlers data ?_
    intro p hp
    by_contra hb
    exact hnex ⟨p, hp, by simpa using hb⟩

/-- Claim C9 (amended) witness: a matching press is acknowledged; an
unmatched press yields the empty trace. -/
theorem callback_ack_amended_witness :
    Action.answerCallback ∈
      dispatchCallback (registeredCallbackHandlers (Except.ok []))
        "done_adding" ∧
    dispatchCallback (registeredCallbackHandlers (Except.ok []))
      "unmatched_tag" = [] :=
  ⟨(callback_ack_amended (Except.ok [])
      (registeredCallbackHandlers (Except.ok [])) "done_adding"
      (List.Perm.refl _)).1 (by decide),
   (callback_ack_amended (Except.ok [])
      (registeredCallbackHandlers (Except.ok [])) "unmatched_tag"
      (List.Perm.refl _)).2 (by decide)⟩

theorem registered_perm_swapped (fridgeRes : Except String (List Ingredient)) :
    (registeredCallbackHandlers fridgeRes).Perm (registeredSwapped fridgeRes) :=
  @List.perm_middle _
    ("done_adding_photos", doneAddingPhotosTrace fridgeRes)
    [("done_adding", doneAddingTrace), ("add_more", addMoreTrace),
     ("show_fridge", showFridgeTrace fridgeRes)]
    [("cancel_adding_photos", cancelAddingPhotosTrace)]

/-- Claim C10 counterexample: the same press data done_adding_photos invokes
the done_adding handler under the registration iteration order but the
done_adding_photos handler under another iteration order of the same
registered map, and the two handlers behave differently; dispatch is
therefore not determined by the callback data alone. -/
theorem callback_dispatch_nondet_cex :
    (registeredCallbackHandlers (Except.ok [])).Perm
      (registeredSwapped (Except.ok [])) ∧
    dispatchCallback (registeredCallbackHandlers (Except.ok []))
      "done_adding_photos" = doneAddingTrace ∧
    dispatchCallback (registeredSwapped (Except.ok []))
      "done_adding_photos" = doneAddingPhotosTrace (Except.ok []) ∧
    doneAddingTrace ≠ doneAddingPhotosTrace (Except.ok []) :=
  ⟨registered_perm_swapped (Except.ok []), rfl, rfl, by decide⟩

theorem dispatch_eq_find (handlers : List (String × List Action))
    (data : String) :
    dispatchCallback handlers data =
      (((handlers.filter fun p => tagMatches p.1 data).head?.map
        Prod.snd).getD []) := by
  induction handlers with
  | nil => rfl
  | cons hd tl ih =>
    by_cases hhd : tagMatches hd.1 data = true
    · rw [dispatchCallback, if_pos hhd, List.filter_cons, if_pos hhd]
      rfl
    · rw [dispatchCallback, if_neg hhd, List.filter_cons,
        if_neg hhd, ih]

/-- Claim C10 (amended): dispatch is a function of the map iteration order as
well as the data; it is independent of the iteration order exactly on data
that matches at most one registered tag, so only prefix-overlapping tags such
as done_adding and done_adding_photos make the invoked handler vary between
presses. -/
theorem callback_dispatch_unique
    (handlers1 handlers2 : List (String × List Action)) (data : String)
    (hperm : handlers1.Perm handlers2)
    (huniq : (handlers1.filter fun p => tagMatches p.1 data).length ≤ 1) :
    dispatchCallback handlers1 data = dispatchCallback handlers2 data := by
  have hpf : (handlers1.filter fun p => tagMatches p.1 data).Perm
      (handlers2.filter fun p => tagMatches p.1 data) := hperm.filter _
  have heq : (handlers1.filter fun p => tagMatches p.1 data) =
      (handlers2.filter fun p => tagMatches p.1 data) := by
    rcases hf : handlers1.filter fun p => tagMatches p.1 data with _ | ⟨a, tl⟩
    · rw [hf] at hpf
      rw [hf]
      exact (hpf.symm.eq_nil).symm
    · rw [hf] at hpf huniq
      have htl : tl = [] := by
        have hlen1 : tl.length = 0 := by
          simp only [List.length_cons] at huniq
          omega
        exact List.length_eq_zero.mp hlen1
      subst htl
      rw [hf]
      exact (List.perm_singleton.mp hpf.symm).symm
  rw [dispatch_eq_find, dispatch_eq_find, heq]

/-- Claim C10 (amended) witness: the data add_more matches exactly one
registered tag, so both iteration orders of the registered map dispatch it
identically. -/
theorem callback_dispatch_unique_witness :
    dispatchCallback (registeredCallbackHandlers (Except.ok [])) "add_more" =
      dispatchCallback (registeredSwapped (Except.ok [])) "add_more" :=
  callback_dispatch_unique (registeredCallbackHandlers (Except.ok []))
    (registeredSwapped (Except.ok [])) "add_more"
    (registered_perm_swapped (Except.ok [])) (by decide)

end WhatsForDinner
